import Mathlib

/-!
Shallow embedding of the instrument drivers of the `Instrumental` repository
(power supplies `Keithley2635A.py` and `AgilentE3633A.py`, spectrometers
`ibsen.py` and `hp.py`), together with theorems settling the frozen claims
about them.

Conventions of the embedding:

* Every `self.write(...)` to the VISA resource becomes an event in an
  explicit transaction trace.  Commands whose text is fixed are recorded
  with their literal SCPI string; commands whose text interpolates a
  numeric value with a `%`-format (`'... %.4E' % x`) are recorded as a
  `writeFmtQ template x` event carrying the literal format template and the
  rational magnitude, since the embedding models physical magnitudes as
  exact rationals rather than floats.
* `time.sleep(t)` becomes a `sleep t` event (seconds, as a rational).
* `print(...)` goes to the console, not to the instrument, and produces no
  event.
* Python truthiness of the `is_on` / `OUTPUT_on` integer flags (always 0 or
  1 in the drivers) is modelled by a `Bool`.
* A stateful method becomes a function `args → State → State × List Event`
  returning the successor state and the trace of transactions it issued, in
  order.
-/

namespace Keithley2635A

/-- A transaction issued by the Keithley 2635A driver:  a literal write, a
`%`-formatted write of one rational magnitude, or a `time.sleep`. -/
inductive KEvent where
  | write (cmd : String)
  | writeFmtQ (template : String) (arg : ℚ)
  | sleep (seconds : ℚ)
  deriving DecidableEq, Repr

/-- The mutable attributes of the `Keithley` driver object touched by the
methods under study (`_initialize` sets `is_on = 0`, `mode = 'VOLTS'`). -/
structure KState where
  is_on : Bool
  mode : String
  volt_compliance : ℚ
  cur_compliance : ℚ
  deriving DecidableEq, Repr

/-- `Keithley.turn_on`: writes `smua.source.output = smua.OUTPUT_ON` and
sets `is_on = 1`. -/
def turn_on (s : KState) : KState × List KEvent :=
  ({ s with is_on := true }, [.write "smua.source.output = smua.OUTPUT_ON"])

/-- `Keithley.turn_off`: writes `smua.source.output = smua.OUTPUT_OFF` and
sets `is_on = 0`. -/
def turn_off (s : KState) : KState × List KEvent :=
  ({ s with is_on := false }, [.write "smua.source.output = smua.OUTPUT_OFF"])

/-- `Keithley.set_func`: rejects any mode other than `'VOLTS'`/`'AMPS'`
with a console message and no action; otherwise writes
`'smua.source.func = smua.OUTPUT_DC%s' % mode` and records the mode. -/
def set_func (mode : String) (s : KState) : KState × List KEvent :=
  if ¬(mode = "VOLTS" ∨ mode = "AMPS") then
    (s, [])
  else
    ({ s with mode := mode }, [.write ("smua.source.func = smua.OUTPUT_DC" ++ mode)])

/-- `Keithley.set_voltage_compliance`: writes the `limitv` and `rangev`
commands and records the compliance. -/
def set_voltage_compliance (v_comp : ℚ) (s : KState) : KState × List KEvent :=
  ({ s with volt_compliance := v_comp },
    [.writeFmtQ "smua.source.limitv = %.4E" v_comp,
     .writeFmtQ "smua.measure.rangev = %.4E" v_comp])

/-- `Keithley.set_current_compliance`: writes the `limiti` command and
records the compliance (the `rangei` write is commented out in the
source). -/
def set_current_compliance (i_comp : ℚ) (s : KState) : KState × List KEvent :=
  ({ s with cur_compliance := i_comp },
    [.writeFmtQ "smua.source.limiti = %.4E" i_comp])

/-- `Keithley.set_voltage`: if the tracked mode is not `'VOLTS'`, calls
`turn_off()`, `set_func('VOLTS')` and `time.sleep(0.1)`; then calls
`turn_on()` whenever `is_on` is falsy; finally writes the level command. -/
def set_voltage (voltage : ℚ) (s : KState) : KState × List KEvent :=
  let step1 : KState × List KEvent :=
    if ¬(s.mode = "VOLTS") then
      let r1 := turn_off s
      let r2 := set_func "VOLTS" r1.1
      (r2.1, r1.2 ++ r2.2 ++ [.sleep (1/10)])
    else (s, [])
  let step2 : KState × List KEvent :=
    if ¬step1.1.is_on then
      let r3 := turn_on step1.1
      (r3.1, step1.2 ++ r3.2)
    else step1
  (step2.1, step2.2 ++ [.writeFmtQ "smua.source.levelv = %.4E" voltage])

/-- `Keithley.set_current`: same shape as `set_voltage` with mode `'AMPS'`
and the `leveli` command. -/
def set_current (current : ℚ) (s : KState) : KState × List KEvent :=
  let step1 : KState × List KEvent :=
    if ¬(s.mode = "AMPS") then
      let r1 := turn_off s
      let r2 := set_func "AMPS" r1.1
      (r2.1, r1.2 ++ r2.2 ++ [.sleep (1/10)])
    else (s, [])
  let step2 : KState × List KEvent :=
    if ¬step1.1.is_on then
      let r3 := turn_on step1.1
      (r3.1, step1.2 ++ r3.2)
    else step1
  (step2.1, step2.2 ++ [.writeFmtQ "smua.source.leveli = %.4E" current])

/-- An event belongs to the mode-switching machinery (output on/off, source
function change, settling delay) rather than to the level write that
realizes the requested output value: the level writes are exactly the
`%`-formatted writes occurring in `set_voltage`/`set_current`. -/
def isSwitchingEvent : KEvent → Bool
  | .writeFmtQ _ _ => false
  | _ => true

end Keithley2635A

namespace AgilentE3633A

/-- A transaction issued by the Agilent E3633A driver: a literal write or a
`%`-formatted write of one rational magnitude. -/
inductive AEvent where
  | write (cmd : String)
  | writeFmtQ (template : String) (arg : ℚ)
  deriving DecidableEq, Repr

/-- The mutable attributes of the `AgilentE3633A` driver object touched by
the methods under study (`_initialize` sets `OUTPUT_on = 0`). -/
structure AState where
  OUTPUT_on : Bool
  cur_limit : ℚ
  deriving DecidableEq, Repr

/-- `AgilentE3633A.turn_output_on`: writes `:OUTP ON`, sets `OUTPUT_on = 1`. -/
def turn_output_on (s : AState) : AState × List AEvent :=
  ({ s with OUTPUT_on := true }, [.write ":OUTP ON"])

/-- `AgilentE3633A.turn_output_off`: writes `:OUTP OFF`, sets `OUTPUT_on = 0`. -/
def turn_output_off (s : AState) : AState × List AEvent :=
  ({ s with OUTPUT_on := false }, [.write ":OUTP OFF"])

/-- `AgilentE3633A.set_voltage`: writes the `:SOUR:VOLT` level only when
`0 <= voltage <= 20` (otherwise prints a console message); then — on both
branches — calls `turn_output_on()` whenever `OUTPUT_on` is falsy. -/
def set_voltage (voltage : ℚ) (s : AState) : AState × List AEvent :=
  let r1 : AState × List AEvent :=
    if 0 ≤ voltage ∧ voltage ≤ 20 then
      (s, [.writeFmtQ ":SOUR:VOLT %.6E" voltage])
    else (s, [])
  if ¬r1.1.OUTPUT_on then
    let r2 := turn_output_on r1.1
    (r2.1, r1.2 ++ r2.2)
  else r1

/-- `AgilentE3633A.set_current_limit`: calls `turn_output_off()` when
`OUTPUT_on` is truthy, then writes the `:SOUR:CURR` limit (the tracked
`cur_limit` attribute is not updated by this method). -/
def set_current_limit (current_limit : ℚ) (s : AState) : AState × List AEvent :=
  let r1 : AState × List AEvent :=
    if s.OUTPUT_on then turn_output_off s else (s, [])
  (r1.1, r1.2 ++ [.writeFmtQ ":SOUR:CURR %.6E" current_limit])

/-- `AgilentE3633A.set_volt_protection`: queries the voltage range (passed
here as the `volt_range` argument, the string the instrument returned) and
writes the `VOLT:PROT:LEV` level only when the level is within the bounds
of that range (`0..8.24` for `'P8V'`, `0..20.6` for `'P20V'`); any other
branch only prints.  The source template has two spaces after `LEV`. -/
def set_volt_protection (volt_range : String) (volt_level : ℚ) (s : AState) :
    AState × List AEvent :=
  if volt_range = "P8V" then
    if 0 ≤ volt_level ∧ volt_level ≤ 824/100 then
      (s, [.writeFmtQ "VOLT:PROT:LEV  %.6E" volt_level])
    else (s, [])
  else if volt_range = "P20V" then
    if 0 ≤ volt_level ∧ volt_level ≤ 206/10 then
      (s, [.writeFmtQ "VOLT:PROT:LEV  %.6E" volt_level])
    else (s, [])
  else (s, [])

end AgilentE3633A

namespace Discovery

/-!
Model of the two `list_instruments` functions (identical shape in
`AgilentE3633A.py` and `Keithley2635A.py`): for each VISA resource string
matching `"GPIB?*"` the scan opens the resource and queries `*IDN?`; a
`pyvisa.errors.VisaIOError` anywhere in that probe is caught and the
candidate skipped; the response is unpacked by
`manufacturer, model, serial, version = idn.rstrip().split(',', 4)` and a
`ParamSet` is appended when the model field matches.  Tuple unpacking of a
split that does not produce exactly four fields raises a `ValueError`,
which no handler catches.
-/

/-- The outcome of probing one candidate VISA address: either the probe
raised `pyvisa.errors.VisaIOError`, or the `*IDN?` query returned a
response string. -/
inductive ProbeResult where
  | ioError
  | idn (response : String)
  deriving DecidableEq, Repr

/-- One candidate resource: its VISA resource string and what probing it
yields. -/
structure Candidate where
  spec : String
  result : ProbeResult
  deriving DecidableEq, Repr

/-- The fields of the `ParamSet` built for a matching candidate. -/
structure ParamSetModel where
  visa_address : String
  manufacturer : String
  serial : String
  model : String
  version : String
  deriving DecidableEq, Repr

/-- Splitting a string (as its list of code points, the faithful model of
a Python `str`) at every comma. -/
def splitCommaChars : List Char → List (List Char)
  | [] => [[]]
  | c :: cs =>
    match splitCommaChars cs with
    | [] => [[]]
    | p :: ps => if c = ',' then [] :: p :: ps else (c :: p) :: ps

/-- Python's `s.rstrip()`: remove trailing whitespace code points. -/
def pyRstrip (s : List Char) : List Char :=
  (s.reverse.dropWhile Char.isWhitespace).reverse

/-- Python's `s.split(',', 4)`: at most 4 splits, so at most 5 parts, the
last part keeping any remaining commas. -/
def pySplitComma4 (s : List Char) : List (List Char) :=
  let parts := splitCommaChars s
  if parts.length ≤ 5 then parts
  else parts.take 4 ++ [(List.intersperse [','] (parts.drop 4)).flatten]

/-- The scan loop of `list_instruments`, parameterized by the model-match
test (`re.match` of a literal pattern, i.e. a prefix test).  `Except.error
()` is the uncaught `ValueError` from tuple unpacking escaping the scan. -/
def scan (matchModel : List Char → Bool) :
    List Candidate → Except Unit (List ParamSetModel)
  | [] => .ok []
  | c :: cs =>
    match c.result with
    | .ioError => scan matchModel cs
    | .idn response =>
      match pySplitComma4 (pyRstrip response.toList) with
      | [manufacturer, model, serial, version] =>
        match scan matchModel cs with
        | .error e => .error e
        | .ok rest =>
          if matchModel model then
            .ok ({ visa_address := c.spec, manufacturer := ⟨manufacturer⟩,
                   serial := ⟨serial⟩, model := ⟨model⟩,
                   version := ⟨version⟩ } :: rest)
          else .ok rest
      | _ => .error ()

/-- `re.match(' Model 2635A', model)` in `Keithley2635A.list_instruments`:
the pattern is literal, so this is a prefix test. -/
def keithleyModelMatch (model : List Char) : Bool :=
  " Model 2635A".toList.isPrefixOf model

/-- `re.match('E3633A', model)` in `AgilentE3633A.list_instruments`. -/
def agilentModelMatch (model : List Char) : Bool :=
  "E3633A".toList.isPrefixOf model

/-- A candidate on which the per-candidate body cannot raise the uncaught
`ValueError`: either the probe raised the caught `VisaIOError`, or the
response splits into exactly four comma-delimited fields. -/
def Unpackable (c : Candidate) : Prop :=
  match c.result with
  | .ioError => True
  | .idn response => (pySplitComma4 (pyRstrip response.toList)).length = 4

instance (c : Candidate) : Decidable (Unpackable c) := by
  unfold Unpackable
  match c.result with
  | .ioError => exact inferInstanceAs (Decidable True)
  | .idn response => exact inferInstanceAs (Decidable _)

/-- What one candidate contributes to a successful scan. -/
def contribution (matchModel : List Char → Bool) (c : Candidate) :
    Option ParamSetModel :=
  match c.result with
  | .ioError => none
  | .idn response =>
    match pySplitComma4 (pyRstrip response.toList) with
    | [manufacturer, model, serial, version] =>
      if matchModel model then
        some { visa_address := c.spec, manufacturer := ⟨manufacturer⟩,
               serial := ⟨serial⟩, model := ⟨model⟩, version := ⟨version⟩ }
      else none
    | _ => none

end Discovery

namespace Ibsen

/-!
Model of `Eagle` in `ibsen.py`.
-/

/-- The numeric value of a non-empty list of decimal digit code points. -/
def parseDigits (cs : List Char) : Option Nat :=
  if cs ≠ [] ∧ cs.all Char.isDigit then
    some (cs.foldl (fun n c => 10 * n + (c.toNat - 48)) 0)
  else none

/-- Python's `int(val)` on the whitespace-split tokens of the spectrometer
response: an optional minus sign followed by decimal digits; `none` is the
`ValueError` raised on a non-numeric token. -/
def pyInt (val : String) : Option Int :=
  match val.toList with
  | '-' :: cs => (parseDigits cs).map (fun n => -(n : Int))
  | cs => (parseDigits cs).map (fun n => (n : Int))

/-- The post-read processing of `Eagle.spectrum` (lines 87-93), applied to
the tokens `raw_data = self._rsrc.read().split()`:
`data1 = raw_data[0][2:]` strips the first two characters of the first
token, `data_list = raw_data[1:]` takes the remaining tokens, `data1` is
prepended when non-empty, and every token is parsed with `int`.  `none`
covers the raising paths (`IndexError` on an empty token list, `ValueError`
on a non-numeric token). -/
def spectrum_counts (raw_data : List String) : Option (List Int) :=
  match raw_data with
  | [] => none
  | first :: rest =>
    let data1 := first.drop 2
    let data_list := if data1 ≠ "" then data1 :: rest else rest
    data_list.mapM pyInt

/-- Polynomial evaluation with coefficients in ascending order of degree:
`np.polyval(p, x)` runs Horner's rule on the highest-degree-first list `p`,
and `Eagle._initialize` passes `fit_params[::-1]`, so on the ascending
`fit_params` list it computes exactly this. -/
def polyvalAsc : List ℚ → ℚ → ℚ
  | [], _ => 0
  | c :: cs, x => c + x * polyvalAsc cs x

/-- The wavelength array of `Eagle._initialize` (line 75):
`np.polyval(self.fit_params[::-1], np.arange(self.n_pixels))`. -/
def wavelengthAxis (fit_params : List ℚ) (n_pixels : ℕ) : List ℚ :=
  (List.range n_pixels).map fun (i : ℕ) => polyvalAsc fit_params (i : ℚ)

end Ibsen

namespace HPOSA

/-!
Model of `HPOSA` in `hp.py`.  The VISA-session side effects of the three
long-running operations are traced as events; `setTimeout ms` records an
assignment `self._rsrc.timeout = ms`.
-/

/-- A VISA-session side effect of an `HPOSA` method. -/
inductive HEvent where
  | setTimeout (ms : ℕ)
  | write (cmd : String)
  | query (cmd : String)
  deriving DecidableEq, Repr

/-- `HPOSA.get_sweep_time` (lines 59-62): raises the timeout to 5000 and
queries `ST?`; no statement restores the timeout before the `return`. -/
def get_sweep_time_events : List HEvent :=
  [.setTimeout 5000, .query "ST?"]

/-- `HPOSA.get_spectrum` (lines 119-133): raises the timeout to 15000,
queries units / center / span, triggers the sweep, reads the trace, then
assigns the fixed value 300 to the timeout and clears the trace. -/
def get_spectrum_events (trace : String) : List HEvent :=
  [.setTimeout 15000, .query "AUNITS?", .query "CF?", .query "SP?",
   .write "TS;DONE?", .query ("TR" ++ trace ++ "?"), .setTimeout 300,
   .write ("CLRW TR" ++ trace)]

/-- The per-peak body of the loop in `HPOSA.get_peak_info`. -/
def peak_events (pk : String) : List HEvent :=
  [.write "TS;DONE?;", .write "MK;", .write ("MKPK " ++ pk ++ ";"),
   .query "MKA?;", .query "MKF?;"]

/-- `HPOSA.get_peak_info` (lines 327-364): raises the timeout to 5000,
runs the marker loop, then assigns the fixed value 300 to the timeout. -/
def get_peak_info_events (peak_id : List String) : List HEvent :=
  [.setTimeout 5000] ++ (peak_id.map peak_events).flatten ++ [.setTimeout 300]

/-- The session timeout after replaying a trace of events from initial
timeout `t0`. -/
def finalTimeout (t0 : ℕ) (evs : List HEvent) : ℕ :=
  evs.foldl (fun t e => match e with | .setTimeout ms => ms | _ => t) t0

/-- `np.linspace(start, stop, n)` with the default inclusive endpoint,
over exact rationals.  (For `n = 1` the factor `(n : ℚ) - 1` is zero and
rational division by zero is zero, so the single sample is `start`,
matching numpy.) -/
def linspace (start stop : ℚ) (n : ℕ) : List ℚ :=
  (List.range n).map fun (i : ℕ) => start + (i : ℚ) * ((stop - start) / ((n : ℚ) - 1))

/-- The wavelength-axis computation of `HPOSA.get_spectrum` (lines
127-130): `wl_start = wl_center - wl_span / 2.0`,
`wl_stop = wl_center + wl_span / 2.0`,
`wl = np.linspace(wl_start, wl_stop, n_pts)`. -/
def spectrum_wavelength_axis (wl_center wl_span : ℚ) (n_pts : ℕ) : List ℚ :=
  linspace (wl_center - wl_span / 2) (wl_center + wl_span / 2) n_pts

end HPOSA

/-!
## Theorems settling the claims
-/

/-- Claim C1: a mode-switching call (`Keithley.set_voltage` /
`Keithley.set_current` with the tracked mode differing from the requested
one) made while output is enabled issues output-off, mode-change, the
100 ms settling delay and output-on, in exactly that order; the full trace
is those four transactions followed by the level write that realizes the
requested value, so the mode-switching transactions (selected by
`isSwitchingEvent`) are exactly the claimed sequence. -/
theorem C1_setMode_enabled_sequence (s : Keithley2635A.KState) (v i : ℚ)
    (hon : s.is_on = true) :
    (s.mode ≠ "VOLTS" →
      (Keithley2635A.set_voltage v s).2 =
        [.write "smua.source.output = smua.OUTPUT_OFF",
         .write "smua.source.func = smua.OUTPUT_DCVOLTS",
         .sleep (1/10),
         .write "smua.source.output = smua.OUTPUT_ON",
         .writeFmtQ "smua.source.levelv = %.4E" v] ∧
      (Keithley2635A.set_voltage v s).2.filter Keithley2635A.isSwitchingEvent =
        [.write "smua.source.output = smua.OUTPUT_OFF",
         .write "smua.source.func = smua.OUTPUT_DCVOLTS",
         .sleep (1/10),
         .write "smua.source.output = smua.OUTPUT_ON"]) ∧
    (s.mode ≠ "AMPS" →
      (Keithley2635A.set_current i s).2 =
        [.write "smua.source.output = smua.OUTPUT_OFF",
         .write "smua.source.func = smua.OUTPUT_DCAMPS",
         .sleep (1/10),
         .write "smua.source.output = smua.OUTPUT_ON",
         .writeFmtQ "smua.source.leveli = %.4E" i] ∧
      (Keithley2635A.set_current i s).2.filter Keithley2635A.isSwitchingEvent =
        [.write "smua.source.output = smua.OUTPUT_OFF",
         .write "smua.source.func = smua.OUTPUT_DCAMPS",
         .sleep (1/10),
         .write "smua.source.output = smua.OUTPUT_ON"]) := by
  constructor <;> intro h <;>
    simp [Keithley2635A.set_voltage, Keithley2635A.set_current,
          Keithley2635A.turn_off, Keithley2635A.turn_on,
          Keithley2635A.set_func, Keithley2635A.isSwitchingEvent, h]

/-- Witness for C1 at a concrete enabled state in `'AMPS'` mode. -/
theorem C1_setMode_enabled_sequence_witness :
    (({ is_on := true, mode := "AMPS", volt_compliance := 5,
        cur_compliance := 1/10 } : Keithley2635A.KState).is_on = true) ∧
    (({ is_on := true, mode := "AMPS", volt_compliance := 5,
        cur_compliance := 1/10 } : Keithley2635A.KState).mode ≠ "VOLTS") ∧
    (Keithley2635A.set_voltage 2
        { is_on := true, mode := "AMPS", volt_compliance := 5,
          cur_compliance := 1/10 }).2.filter Keithley2635A.isSwitchingEvent =
      [.write "smua.source.output = smua.OUTPUT_OFF",
       .write "smua.source.func = smua.OUTPUT_DCVOLTS",
       .sleep (1/10),
       .write "smua.source.output = smua.OUTPUT_ON"] :=
  ⟨rfl, by decide,
    ((C1_setMode_enabled_sequence
        { is_on := true, mode := "AMPS", volt_compliance := 5,
          cur_compliance := 1/10 } 2 3 rfl).1 (by decide)).2⟩

/-- Counterexample to claim C2: with output disabled (`is_on = 0`) and mode
`'AMPS'`, `Keithley.set_voltage` still writes the output-off and output-on
commands, because the mode-differs branch calls `turn_off()`
unconditionally and `turn_off()` leaves `is_on` falsy, so `turn_on()` runs
afterwards. -/
theorem C2_counterexample :
    Keithley2635A.KEvent.write "smua.source.output = smua.OUTPUT_OFF" ∈
      (Keithley2635A.set_voltage 1 ⟨false, "AMPS", 5, 1/10⟩).2 ∧
    Keithley2635A.KEvent.write "smua.source.output = smua.OUTPUT_ON" ∈
      (Keithley2635A.set_voltage 1 ⟨false, "AMPS", 5, 1/10⟩).2 := by decide

/-- Claim C2 as amended: a mode-switching call made while output is
disabled issues the same output-off, mode-change, settling-delay,
output-on sequence as the enabled case (followed by the level write), and
returns with output enabled. -/
theorem C2_setMode_disabled_sequence (s : Keithley2635A.KState) (v i : ℚ)
    (hoff : s.is_on = false) :
    (s.mode ≠ "VOLTS" →
      (Keithley2635A.set_voltage v s).2 =
        [.write "smua.source.output = smua.OUTPUT_OFF",
         .write "smua.source.func = smua.OUTPUT_DCVOLTS",
         .sleep (1/10),
         .write "smua.source.output = smua.OUTPUT_ON",
         .writeFmtQ "smua.source.levelv = %.4E" v] ∧
      (Keithley2635A.set_voltage v s).1.is_on = true) ∧
    (s.mode ≠ "AMPS" →
      (Keithley2635A.set_current i s).2 =
        [.write "smua.source.output = smua.OUTPUT_OFF",
         .write "smua.source.func = smua.OUTPUT_DCAMPS",
         .sleep (1/10),
         .write "smua.source.output = smua.OUTPUT_ON",
         .writeFmtQ "smua.source.leveli = %.4E" i] ∧
      (Keithley2635A.set_current i s).1.is_on = true) := by
  constructor <;> intro h <;>
    simp [Keithley2635A.set_voltage, Keithley2635A.set_current,
          Keithley2635A.turn_off, Keithley2635A.turn_on,
          Keithley2635A.set_func, h]

/-- Witness for the amended C2 at a concrete disabled state. -/
theorem C2_setMode_disabled_sequence_witness :
    (((⟨false, "AMPS", 5, 1/10⟩ : Keithley2635A.KState)).is_on = false) ∧
    (((⟨false, "AMPS", 5, 1/10⟩ : Keithley2635A.KState)).mode ≠ "VOLTS") ∧
    (Keithley2635A.set_voltage 1 ⟨false, "AMPS", 5, 1/10⟩).1.is_on = true :=
  ⟨rfl, by decide,
    ((C2_setMode_disabled_sequence ⟨false, "AMPS", 5, 1/10⟩ 1 2 rfl).1
      (by decide)).2⟩

/-- Counterexample to claim C3: `AgilentE3633A.set_voltage 25` (out of
`[0, 20]`) with output off does not leave the hardware untouched: it
issues the `:OUTP ON` write and flips the tracked output flag, because the
`turn_output_on` step runs on both branches of the range check. -/
theorem C3_counterexample :
    (AgilentE3633A.set_voltage 25 ⟨false, 1/2⟩).2 = [.write ":OUTP ON"] ∧
    (AgilentE3633A.set_voltage 25 ⟨false, 1/2⟩).2 ≠ [] ∧
    (AgilentE3633A.set_voltage 25 ⟨false, 1/2⟩).1.OUTPUT_on = true := by decide

/-- Claim C3 as amended: an out-of-range value is never written — no
`%`-formatted level write occurs in `AgilentE3633A.set_voltage` for
voltage outside `[0, 20]`, and `set_volt_protection` issues zero writes
for a level outside the bounds of the selected range — but `set_voltage`
still issues the output-on write when output was off (and issues zero
writes only when output was already on). -/
theorem C3_out_of_range_rejection (a : AgilentE3633A.AState) (v lvl : ℚ)
    (rng : String) (hv : v < 0 ∨ 20 < v) :
    ((AgilentE3633A.set_voltage v a).2 =
      if a.OUTPUT_on then [] else [.write ":OUTP ON"]) ∧
    (∀ t x, AgilentE3633A.AEvent.writeFmtQ t x ∉ (AgilentE3633A.set_voltage v a).2) ∧
    (rng = "P8V" → (lvl < 0 ∨ 824/100 < lvl) →
      AgilentE3633A.set_volt_protection rng lvl a = (a, [])) ∧
    (rng = "P20V" → (lvl < 0 ∨ 206/10 < lvl) →
      AgilentE3633A.set_volt_protection rng lvl a = (a, [])) := by
  have hcond : ¬(0 ≤ v ∧ v ≤ 20) := by
    rcases hv with h | h <;> intro hc <;> rcases hc with ⟨h1, h2⟩ <;> linarith
  refine ⟨?_, ?_, ?_, ?_⟩
  · cases h : a.OUTPUT_on <;>
      simp [AgilentE3633A.set_voltage, AgilentE3633A.turn_output_on, hcond, h]
  · intro t x
    cases h : a.OUTPUT_on <;>
      simp [AgilentE3633A.set_voltage, AgilentE3633A.turn_output_on, hcond, h]
  · intro h8 hl
    have hb : ¬(0 ≤ lvl ∧ lvl ≤ 824/100) := by
      rcases hl with h | h <;> intro hc <;> rcases hc with ⟨h1, h2⟩ <;> linarith
    simp [AgilentE3633A.set_volt_protection, h8, hb]
  · intro h20 hl
    have hb : ¬(0 ≤ lvl ∧ lvl ≤ 206/10) := by
      rcases hl with h | h <;> intro hc <;> rcases hc with ⟨h1, h2⟩ <;> linarith
    simp [AgilentE3633A.set_volt_protection, h20, hb]

/-- Witness for the amended C3 at voltage 21 with output already on. -/
theorem C3_out_of_range_rejection_witness :
    ((21:ℚ) < 0 ∨ (20:ℚ) < 21) ∧
    (AgilentE3633A.set_voltage 21 ⟨true, 1/2⟩).2 = [] :=
  ⟨Or.inr (by norm_num), by
    have h := (C3_out_of_range_rejection ⟨true, 1/2⟩ 21 9 "P8V"
      (Or.inr (by norm_num))).1
    simpa using h⟩

/-- Counterexample to claim C8: `Keithley.set_voltage_compliance` called
with output enabled writes the limit commands without any output-off write
and returns with output still enabled. -/
theorem C8_counterexample :
    (Keithley2635A.set_voltage_compliance 5 ⟨true, "VOLTS", 5, 1/10⟩).2 =
      [.writeFmtQ "smua.source.limitv = %.4E" 5,
       .writeFmtQ "smua.measure.rangev = %.4E" 5] ∧
    Keithley2635A.KEvent.write "smua.source.output = smua.OUTPUT_OFF" ∉
      (Keithley2635A.set_voltage_compliance 5 ⟨true, "VOLTS", 5, 1/10⟩).2 ∧
    (Keithley2635A.set_voltage_compliance 5 ⟨true, "VOLTS", 5, 1/10⟩).1.is_on = true := by
  decide

/-- Claim C8 as amended: `AgilentE3633A.set_current_limit` called with
output enabled disables output before the limit write and leaves it
disabled; the Keithley compliance setters, by contrast, write their limit
commands directly and leave the output state unchanged. -/
theorem C8_limit_setters (a : AgilentE3633A.AState) (k : Keithley2635A.KState)
    (cl vc ic : ℚ) (hon : a.OUTPUT_on = true) :
    (AgilentE3633A.set_current_limit cl a).2 =
      [.write ":OUTP OFF", .writeFmtQ ":SOUR:CURR %.6E" cl] ∧
    (AgilentE3633A.set_current_limit cl a).1.OUTPUT_on = false ∧
    (Keithley2635A.set_voltage_compliance vc k).2 =
      [.writeFmtQ "smua.source.limitv = %.4E" vc,
       .writeFmtQ "smua.measure.rangev = %.4E" vc] ∧
    (Keithley2635A.set_voltage_compliance vc k).1.is_on = k.is_on ∧
    (Keithley2635A.set_current_compliance ic k).2 =
      [.writeFmtQ "smua.source.limiti = %.4E" ic] ∧
    (Keithley2635A.set_current_compliance ic k).1.is_on = k.is_on := by
  simp [AgilentE3633A.set_current_limit, AgilentE3633A.turn_output_off, hon,
        Keithley2635A.set_voltage_compliance, Keithley2635A.set_current_compliance]

/-- Witness for the amended C8 at a concrete enabled Agilent state. -/
theorem C8_limit_setters_witness :
    ((⟨true, 1/2⟩ : AgilentE3633A.AState).OUTPUT_on = true) ∧
    (AgilentE3633A.set_current_limit (3/10) ⟨true, 1/2⟩).1.OUTPUT_on = false :=
  ⟨rfl, (C8_limit_setters ⟨true, 1/2⟩ ⟨true, "VOLTS", 5, 1/10⟩ (3/10) 5 (1/10)
      rfl).2.1⟩

/-- Claim C10: `Keithley.set_func` with any mode other than `'VOLTS'` or
`'AMPS'` issues no write and leaves the whole driver state (in particular
the tracked mode) unchanged. -/
theorem C10_set_func_invalid_noop (mode : String) (s : Keithley2635A.KState)
    (h1 : mode ≠ "VOLTS") (h2 : mode ≠ "AMPS") :
    Keithley2635A.set_func mode s = (s, []) := by
  simp [Keithley2635A.set_func, h1, h2]

/-- Witness for C10 at the invalid mode string `'CURR'`. -/
theorem C10_set_func_invalid_noop_witness :
    ("CURR" ≠ "VOLTS") ∧ ("CURR" ≠ "AMPS") ∧
    Keithley2635A.set_func "CURR" ⟨false, "VOLTS", 5, 1/10⟩ =
      (⟨false, "VOLTS", 5, 1/10⟩, []) :=
  ⟨by decide, by decide,
    C10_set_func_invalid_noop "CURR" ⟨false, "VOLTS", 5, 1/10⟩
      (by decide) (by decide)⟩

/-- A list of length four is literally a four-element list. -/
theorem exists_four_of_length_eq {α : Type} {l : List α} (h : l.length = 4) :
    ∃ a b c d, l = [a, b, c, d] := by
  cases l with
  | nil => simp at h
  | cons a t1 =>
    cases t1 with
    | nil => simp at h
    | cons b t2 =>
      cases t2 with
      | nil => simp at h
      | cons c t3 =>
        cases t3 with
        | nil => simp at h
        | cons d t4 =>
          cases t4 with
          | nil => exact ⟨a, b, c, d, rfl⟩
          | cons e t5 => simp at h

/-- Counterexample to claim C4: a malformed identification string does not
merely skip its candidate — the tuple unpacking raises a `ValueError` that
no handler catches (only `pyvisa.errors.VisaIOError` is caught), so the
scan aborts and even the matching candidate's descriptor is lost. -/
theorem C4_counterexample :
    Discovery.scan Discovery.keithleyModelMatch
      [⟨"GPIB0::1::INSTR", .idn "Keithley Instruments Inc., Model 2635A,1234567,v1.0"⟩,
       ⟨"GPIB0::2::INSTR", .idn "MALFORMED IDN WITHOUT COMMAS"⟩] = .error () := by
  rfl

/-- Claim C4 as amended: an I/O error or a non-matching model causes only
that candidate to be skipped, and over candidates that are all either
I/O failures or responses splitting into exactly four comma-delimited
fields the scan returns exactly the matching candidates' descriptors; a
response with any other field count raises an uncaught `ValueError` that
aborts the whole scan. -/
theorem C4_scan_skips (matchModel : List Char → Bool) (cs : List Discovery.Candidate)
    (h : ∀ c ∈ cs, Discovery.Unpackable c) :
    Discovery.scan matchModel cs =
      .ok (cs.filterMap (Discovery.contribution matchModel)) := by
  induction cs with
  | nil => rfl
  | cons c cs ih =>
    have hc := h c (List.mem_cons_self c cs)
    have hrest := ih (fun x hx => h x (List.mem_cons_of_mem c hx))
    cases hres : c.result with
    | ioError =>
      simp [Discovery.scan, Discovery.contribution, hres, hrest]
    | idn response =>
      unfold Discovery.Unpackable at hc
      rw [hres] at hc
      obtain ⟨m1, m2, m3, m4, hsplit⟩ := exists_four_of_length_eq hc
      simp only [String.toList] at hsplit
      cases hm : matchModel m2 <;>
        simp [Discovery.scan, Discovery.contribution, hres, hsplit, hrest, hm]

/-- Witness for the amended C4 on the spec's three-candidate scenario: one
I/O failure, one valid non-matching response, one valid matching response
— exactly one descriptor comes back. -/
theorem C4_scan_skips_witness :
    (∀ c ∈ ([⟨"GPIB0::1::INSTR", .ioError⟩,
             ⟨"GPIB0::2::INSTR", .idn "HEWLETT-PACKARD,E3633A,0,2.1"⟩,
             ⟨"GPIB0::3::INSTR",
              .idn "Keithley Instruments Inc., Model 2635A,1234567,v1.0"⟩] :
        List Discovery.Candidate), Discovery.Unpackable c) ∧
    Discovery.scan Discovery.keithleyModelMatch
      [⟨"GPIB0::1::INSTR", .ioError⟩,
       ⟨"GPIB0::2::INSTR", .idn "HEWLETT-PACKARD,E3633A,0,2.1"⟩,
       ⟨"GPIB0::3::INSTR",
        .idn "Keithley Instruments Inc., Model 2635A,1234567,v1.0"⟩] =
      .ok [{ visa_address := "GPIB0::3::INSTR",
             manufacturer := "Keithley Instruments Inc.",
             serial := "1234567", model := " Model 2635A", version := "v1.0" }] :=
  ⟨by decide, by
    rw [C4_scan_skips Discovery.keithleyModelMatch _ (by decide)]
    rfl⟩

/-- Claim C5: the frame-reconstruction step of `Eagle.spectrum` strips the
first two characters of the first token, prepends the remainder to the
other tokens when it is non-empty and drops it when empty, parses every
token as an integer, and reconstructs `["AB12", "34", "56"]` to
`[12, 34, 56]`. -/
theorem C5_spectrum_reconstruction (first : String) (rest : List String) :
    (first.drop 2 ≠ "" →
      Ibsen.spectrum_counts (first :: rest) =
        (first.drop 2 :: rest).mapM Ibsen.pyInt) ∧
    (first.drop 2 = "" →
      Ibsen.spectrum_counts (first :: rest) = rest.mapM Ibsen.pyInt) ∧
    Ibsen.spectrum_counts ["AB12", "34", "56"] = some [12, 34, 56] := by
  refine ⟨fun h => ?_, fun h => ?_, by rfl⟩ <;> simp [Ibsen.spectrum_counts, h]

/-- Witness for C5 on the claim's malformed-frame tokens. -/
theorem C5_spectrum_reconstruction_witness :
    ("AB12".drop 2 ≠ "") ∧
    Ibsen.spectrum_counts ["AB12", "34", "56"] =
      ("AB12".drop 2 :: ["34", "56"]).mapM Ibsen.pyInt :=
  ⟨by decide, (C5_spectrum_reconstruction "AB12" ["34", "56"]).1 (by decide)⟩

/-- Counterexample to claim C6: the span-based axis is not monotonically
increasing for every span — with zero span (and any count `n ≥ 2`) the
axis is constant. -/
theorem C6_counterexample :
    HPOSA.spectrum_wavelength_axis 1550 0 2 = [1550, 1550] ∧
    ¬ List.Chain' (· < ·) (HPOSA.spectrum_wavelength_axis 1550 0 2) := by
  constructor
  · simp [HPOSA.spectrum_wavelength_axis, HPOSA.linspace, List.range_succ]
  · intro hch
    have h1 : HPOSA.spectrum_wavelength_axis 1550 0 2 = [1550, 1550] := by
      simp [HPOSA.spectrum_wavelength_axis, HPOSA.linspace, List.range_succ]
    rw [h1] at hch
    exact absurd (List.chain'_cons.mp hch).1 (lt_irrefl (1550 : ℚ))

/-- The `i`-th sample of the exact-rational `np.linspace`. -/
theorem linspace_getElem (a b : ℚ) (N i : ℕ) (hi : i < N) :
    (HPOSA.linspace a b N)[i]? = some (a + (i : ℚ) * ((b - a) / ((N : ℚ) - 1))) := by
  unfold HPOSA.linspace
  rw [List.getElem?_map, List.getElem?_range hi]
  rfl

/-- The exact-rational `np.linspace` returns as many samples as requested. -/
theorem linspace_length (a b : ℚ) (N : ℕ) : (HPOSA.linspace a b N).length = N := by
  unfold HPOSA.linspace
  rw [List.length_map, List.length_range]

/-- Claim C6 as amended: for every positive span and count `n ≥ 2` the
span-based wavelength axis of `HPOSA.get_spectrum` is linear (entry `i` is
`center - span/2 + i·span/(n-1)`), strictly increasing, of length `n`,
starting at `center - span/2` and ending at `center + span/2`; for
center 1550 nm, span 10 nm, count 5 it is `[1545, 1547.5, 1550, 1552.5,
1555]` nm.  (For span 0 the axis is constant, so the claim's universal
quantification over all spans fails; positivity is required.) -/
theorem C6_span_axis (center span : ℚ) (n : ℕ) (hspan : 0 < span) (hn : 2 ≤ n) :
    (HPOSA.spectrum_wavelength_axis center span n).length = n ∧
    (∀ i, i < n →
      (HPOSA.spectrum_wavelength_axis center span n)[i]? =
        some (center - span/2 + i * (span / ((n : ℚ) - 1)))) ∧
    (HPOSA.spectrum_wavelength_axis center span n).head? = some (center - span/2) ∧
    (HPOSA.spectrum_wavelength_axis center span n).getLast? = some (center + span/2) ∧
    List.Chain' (· < ·) (HPOSA.spectrum_wavelength_axis center span n) ∧
    HPOSA.spectrum_wavelength_axis 1550 10 5 =
      [1545, 3095/2, 1550, 3105/2, 1555] := by
  obtain ⟨m, rfl⟩ : ∃ m, n = m + 2 := ⟨n - 2, by omega⟩
  have hcast : ((m + 2 : ℕ) : ℚ) - 1 = (m : ℚ) + 1 := by push_cast; ring
  have hne : ((m : ℚ) + 1) ≠ 0 := by positivity
  have hstep : 0 < span / ((m : ℚ) + 1) := div_pos hspan (by positivity)
  have hspan2 : (center + span / 2) - (center - span / 2) = span := by ring
  have hel : ∀ i, i < m + 2 →
      (HPOSA.spectrum_wavelength_axis center span (m + 2))[i]? =
        some (center - span / 2 + (i : ℚ) * (span / (((m + 2 : ℕ) : ℚ) - 1))) := by
    intro i hi
    unfold HPOSA.spectrum_wavelength_axis
    rw [linspace_getElem _ _ _ i hi, hspan2]
  have hlen : (HPOSA.spectrum_wavelength_axis center span (m + 2)).length = m + 2 :=
    linspace_length _ _ _
  refine ⟨hlen, ?_, ?_, ?_, ?_, ?_⟩
  · intro i hi
    rw [hel i hi]
  · rw [List.head?_eq_getElem?, hel 0 (by omega)]
    norm_num
  · rw [List.getLast?_eq_getElem?, hlen]
    have h1 : m + 2 - 1 = m + 1 := rfl
    rw [h1, hel (m + 1) (by omega), hcast]
    congr 1
    have h2 : ((m + 1 : ℕ) : ℚ) = (m : ℚ) + 1 := by push_cast; ring
    rw [h2]
    field_simp
    ring
  · unfold HPOSA.spectrum_wavelength_axis HPOSA.linspace
    rw [List.chain'_map]
    have h2 : m + 2 = (m + 1) + 1 := rfl
    rw [h2, List.chain'_range_succ]
    intro k hk
    rw [hspan2, hcast]
    have h3 : ((k + 1 : ℕ) : ℚ) = (k : ℚ) + 1 := by push_cast; ring
    rw [h3]
    have h4 : ((k : ℚ) + 1) * (span / ((m : ℚ) + 1)) =
        (k : ℚ) * (span / ((m : ℚ) + 1)) + span / ((m : ℚ) + 1) := by ring
    rw [h4]
    linarith
  · norm_num [HPOSA.spectrum_wavelength_axis, HPOSA.linspace, List.range_succ]

/-- Witness for the amended C6 at the spec's concrete sweep parameters. -/
theorem C6_span_axis_witness :
    ((0:ℚ) < 10) ∧ (2 ≤ 5) ∧
    List.Chain' (· < ·) (HPOSA.spectrum_wavelength_axis 1550 10 5) ∧
    (HPOSA.spectrum_wavelength_axis 1550 10 5).length = 5 :=
  ⟨by norm_num, by norm_num,
    (C6_span_axis 1550 10 5 (by norm_num) (by norm_num)).2.2.2.2.1,
    (C6_span_axis 1550 10 5 (by norm_num) (by norm_num)).1⟩

/-- Counterexample to claim C7: `HPOSA.get_sweep_time` raises the session
timeout to 5000 for its long-running query and returns without any
restoring assignment, leaving the larger timeout permanently in place. -/
theorem C7_counterexample :
    HPOSA.finalTimeout 300 HPOSA.get_sweep_time_events = 5000 ∧
    (5000 : ℕ) ≠ 300 := ⟨rfl, by decide⟩

/-- Claim C7 as amended: on their normal return path `HPOSA.get_spectrum`
and `HPOSA.get_peak_info` set the timeout back to the fixed
initialization default 300 (not the saved prior value, and with no
protection on failure paths), while `HPOSA.get_sweep_time` performs no
restoring assignment at all and ends with the raised timeout 5000. -/
theorem C7_timeout_after (t0 : ℕ) (trace : String) (peak_id : List String) :
    HPOSA.finalTimeout t0 (HPOSA.get_spectrum_events trace) = 300 ∧
    HPOSA.finalTimeout t0 (HPOSA.get_peak_info_events peak_id) = 300 ∧
    HPOSA.finalTimeout t0 HPOSA.get_sweep_time_events = 5000 := by
  refine ⟨rfl, ?_, rfl⟩
  simp [HPOSA.get_peak_info_events, HPOSA.finalTimeout, List.foldl_append]

/-- Counterexample to claim C9: the calibrated axis is not monotonically
non-decreasing for every device fit-parameter vector — the five
coefficients `[0, -1, 0, 0, 0]` (the polynomial `-x`) over two pixels give
the strictly decreasing axis `[0, -1]`. -/
theorem C9_counterexample :
    Ibsen.wavelengthAxis [0, -1, 0, 0, 0] 2 = [0, -1] ∧
    ¬ List.Chain' (· ≤ ·) (Ibsen.wavelengthAxis [0, -1, 0, 0, 0] 2) := by
  have h1 : Ibsen.wavelengthAxis [0, -1, 0, 0, 0] 2 = [0, -1] := by
    simp [Ibsen.wavelengthAxis, List.range_succ, Ibsen.polyvalAsc]
  refine ⟨h1, fun hch => ?_⟩
  rw [h1] at hch
  have h2 := (List.chain'_cons.mp hch).1
  norm_num at h2

/-- Evaluating a polynomial with non-negative ascending coefficients at a
non-negative point is non-negative. -/
theorem polyvalAsc_nonneg (cs : List ℚ) (x : ℚ)
    (hcs : ∀ c ∈ cs, 0 ≤ c) (hx : 0 ≤ x) : 0 ≤ Ibsen.polyvalAsc cs x := by
  induction cs with
  | nil => simp [Ibsen.polyvalAsc]
  | cons c cs ih =>
    have hc : 0 ≤ c := hcs c (List.mem_cons_self c cs)
    have htail : ∀ d ∈ cs, 0 ≤ d := fun d hd => hcs d (List.mem_cons_of_mem c hd)
    have h1 := ih htail
    simpa [Ibsen.polyvalAsc] using add_nonneg hc (mul_nonneg hx h1)

/-- A polynomial with non-negative ascending coefficients is monotone on
the non-negative reals (rationals here). -/
theorem polyvalAsc_mono_of_nonneg (cs : List ℚ) (x y : ℚ)
    (hcs : ∀ c ∈ cs, 0 ≤ c) (hx : 0 ≤ x) (hxy : x ≤ y) :
    Ibsen.polyvalAsc cs x ≤ Ibsen.polyvalAsc cs y := by
  induction cs with
  | nil => simp [Ibsen.polyvalAsc]
  | cons c cs ih =>
    have htail : ∀ d ∈ cs, 0 ≤ d := fun d hd => hcs d (List.mem_cons_of_mem c hd)
    have h1 : 0 ≤ Ibsen.polyvalAsc cs x := polyvalAsc_nonneg cs x htail hx
    have h2 : Ibsen.polyvalAsc cs x ≤ Ibsen.polyvalAsc cs y := ih htail
    have hy : 0 ≤ y := le_trans hx hxy
    simp only [Ibsen.polyvalAsc]
    nlinarith

/-- Claim C9 as amended: the calibrated axis `wavelengthAxis coeffs count`
has length `count` and is monotonically non-decreasing whenever every
coefficient of degree at least one is non-negative (the constant
coefficient may be arbitrary); for arbitrary device fit parameters no such
monotonicity invariant holds. -/
theorem C9_axis_monotone (c0 : ℚ) (rest : List ℚ) (n : ℕ)
    (h : ∀ c ∈ rest, 0 ≤ c) :
    (Ibsen.wavelengthAxis (c0 :: rest) n).length = n ∧
    List.Chain' (· ≤ ·) (Ibsen.wavelengthAxis (c0 :: rest) n) := by
  constructor
  · simp [Ibsen.wavelengthAxis]
  · unfold Ibsen.wavelengthAxis
    rw [List.chain'_map]
    cases n with
    | zero => simp
    | succ m =>
      rw [List.chain'_range_succ]
      intro k hk
      simp only [Ibsen.polyvalAsc]
      have hx : (0:ℚ) ≤ (k : ℚ) := by positivity
      have hxy : (k : ℚ) ≤ ((k + 1 : ℕ) : ℚ) := by push_cast; linarith
      have h1 : 0 ≤ Ibsen.polyvalAsc rest (k : ℚ) := polyvalAsc_nonneg rest _ h hx
      have h2 : Ibsen.polyvalAsc rest (k : ℚ) ≤ Ibsen.polyvalAsc rest ((k + 1 : ℕ) : ℚ) :=
        polyvalAsc_mono_of_nonneg rest _ _ h hx hxy
      have h3 : ((k + 1 : ℕ) : ℚ) = (k : ℚ) + 1 := by push_cast; ring
      nlinarith

/-- Witness for the amended C9 on a five-coefficient fit vector with
non-negative non-constant coefficients. -/
theorem C9_axis_monotone_witness :
    (∀ c ∈ ([2, 0, 0, 0] : List ℚ), 0 ≤ c) ∧
    List.Chain' (· ≤ ·) (Ibsen.wavelengthAxis (100 :: [2, 0, 0, 0]) 3) :=
  ⟨by norm_num, (C9_axis_monotone 100 [2, 0, 0, 0] 3 (by norm_num)).2⟩
